import Mathlib

/-!
# Verification of the Miro-API placement engine

Shallow embedding of the placement engine of `Card-Creation.py`:
the collision detector `is_collision`, the spiral search
`find_free_position`, the placement orchestration `create_miro_element`,
the card-height adjustment `adjust_card_height`, and the hex-color
validator `validate_hex_color`.

Numbers are modelled by `ℚ` (the Python code mixes ints and floats; the
constants involved — halves and tenths — are exact rationals, and all
claims are about the algebraic structure of the computations).
-/

section
/- The Batteries rational-number operations are irreducible by default,
which blocks `decide`-style evaluation of the placement engine on
concrete boards; restore ordinary unfolding for them. -/
set_option allowUnsafeReducibility true
attribute [semireducible] Rat.mul Rat.add Rat.sub Rat.div Rat.inv Rat.neg
end

namespace Miro

/-- A rectangle as consumed from the board snapshot: `(x, y)` is the
center, `width`/`height` the dimensions (columns `x`, `y`, `width`,
`height` of the items DataFrame). -/
structure MiroItem where
  x : ℚ
  y : ℚ
  width : ℚ
  height : ℚ
  deriving DecidableEq, Repr

/-- One existing item against the margin-expanded candidate box:
the body of the vectorized comparison in `is_collision`
(`collision_x & collision_y` for a single row). -/
def itemCollision (new_x new_y new_width new_height : ℚ) (e : MiroItem) : Bool :=
  let clear_x := new_width * (1/10)
  let clear_y := new_height * (1/10)
  let expanded_new_x := new_x - new_width / 2 - clear_x
  let expanded_new_y := new_y - new_height / 2 - clear_y
  let expanded_new_width := new_width + 2 * clear_x
  let expanded_new_height := new_height + 2 * clear_y
  let existing_top_left_x := e.x - e.width / 2
  let existing_top_left_y := e.y - e.height / 2
  (decide (expanded_new_x + expanded_new_width ≥ existing_top_left_x)
    && decide (expanded_new_x ≤ existing_top_left_x + e.width))
  && (decide (expanded_new_y + expanded_new_height ≥ existing_top_left_y)
    && decide (expanded_new_y ≤ existing_top_left_y + e.height))

/-- `is_collision` from `Card-Creation.py`: the candidate (expanded by a
10% clearance on each side) is tested against every existing item;
`np.any` over the vectorized per-item comparisons. -/
def is_collision (new_x new_y new_width new_height : ℚ)
    (existing_items : List MiroItem) : Bool :=
  existing_items.any (itemCollision new_x new_y new_width new_height)

/-- Reference definition of the collision predicate, written from the
specification's words: expand only the candidate by 10% of its width on
each x-side and 10% of its height on each y-side, convert centers to
top-left corners, declare an axis overlapping when
`expanded_min ≤ other_max ∧ expanded_max ≥ other_min` (inclusive), and
collide iff both axes overlap for at least one existing rectangle. -/
def collisionSpec (new_x new_y new_width new_height : ℚ)
    (existing_items : List MiroItem) : Prop :=
  ∃ e ∈ existing_items,
    (let cand_min_x := (new_x - new_width / 2) - new_width / 10
     let cand_max_x := (new_x + new_width / 2) + new_width / 10
     let other_min_x := e.x - e.width / 2
     let other_max_x := other_min_x + e.width
     cand_min_x ≤ other_max_x ∧ cand_max_x ≥ other_min_x) ∧
    (let cand_min_y := (new_y - new_height / 2) - new_height / 10
     let cand_max_y := (new_y + new_height / 2) + new_height / 10
     let other_min_y := e.y - e.height / 2
     let other_max_y := other_min_y + e.height
     cand_min_y ≤ other_max_y ∧ cand_max_y ≥ other_min_y)

lemma itemCollision_iff (nx ny nw nh : ℚ) (e : MiroItem) :
    itemCollision nx ny nw nh e = true ↔
      ((nx - nw / 2) - nw / 10 ≤ (e.x - e.width / 2) + e.width ∧
        (nx + nw / 2) + nw / 10 ≥ e.x - e.width / 2) ∧
      ((ny - nh / 2) - nh / 10 ≤ (e.y - e.height / 2) + e.height ∧
        (ny + nh / 2) + nh / 10 ≥ e.y - e.height / 2) := by
  simp only [itemCollision, Bool.and_eq_true, decide_eq_true_eq]
  constructor
  · rintro ⟨⟨hx1, hx2⟩, hy1, hy2⟩
    refine ⟨⟨by linarith, by linarith⟩, by linarith, by linarith⟩
  · rintro ⟨⟨hx1, hx2⟩, hy1, hy2⟩
    refine ⟨⟨by linarith, by linarith⟩, by linarith, by linarith⟩

/-! ## Spiral position search (`find_free_position`) -/

/-- The mutable loop state of `find_free_position` (lines 182–205):
current position, step magnitude, attempts counter, the regenerated
direction list, direction index, leg counters and the leg-growth
toggle. -/
structure SpiralState where
  x : ℚ
  y : ℚ
  step : ℚ
  attempts : ℕ
  directions : List (ℚ × ℚ)
  directionIndex : ℕ
  stepsInCurrentLeg : ℕ
  stepsTaken : ℕ
  legIncreaseTriggered : Bool
  deriving DecidableEq, Repr

/-- `directions = [(step, 0), (0, step), (-step, 0), (0, -step)]`. -/
def mkDirections (step : ℚ) : List (ℚ × ℚ) :=
  [(step, 0), (0, step), (-step, 0), (0, -step)]

/-- Loop-state initialisation of `find_free_position`
(lines 182–188). -/
def initState (x y initial_step : ℚ) : SpiralState :=
  { x := x
    y := y
    step := initial_step
    attempts := 0
    directions := mkDirections initial_step
    directionIndex := 0
    stepsInCurrentLeg := 1
    stepsTaken := 0
    legIncreaseTriggered := false }

/-- One iteration of the `while` body of `find_free_position`
(lines 191–205): move by the active direction vector, bump the
counters, grow `step` (regenerating the directions) exactly when the
new attempts count is a multiple of `increase_step_interval`, and
advance the leg bookkeeping when the current leg is complete. -/
def spiralAdvance (initial_step : ℚ) (increase_step_interval : ℕ)
    (s : SpiralState) : SpiralState :=
  let d := s.directions.getD s.directionIndex (0, 0)
  let x' := s.x + d.1
  let y' := s.y + d.2
  let stepsTaken' := s.stepsTaken + 1
  let attempts' := s.attempts + 1
  let step' :=
    if attempts' % increase_step_interval = 0 then s.step + initial_step
    else s.step
  let directions' :=
    if attempts' % increase_step_interval = 0 then mkDirections step'
    else s.directions
  if stepsTaken' = s.stepsInCurrentLeg then
    { x := x'
      y := y'
      step := step'
      attempts := attempts'
      directions := directions'
      directionIndex := (s.directionIndex + 1) % 4
      stepsInCurrentLeg :=
        if s.legIncreaseTriggered then s.stepsInCurrentLeg + 1
        else s.stepsInCurrentLeg
      stepsTaken := 0
      legIncreaseTriggered := !s.legIncreaseTriggered }
  else
    { s with
      x := x'
      y := y'
      step := step'
      attempts := attempts'
      directions := directions'
      stepsTaken := stepsTaken' }

/-- The `while is_collision … and attempts < max_attempts` loop, with
the remaining attempt budget as fuel (at entry the fuel is
`max_attempts` and `attempts = 0`, so fuel `0` is exactly
`attempts = max_attempts`). -/
def findLoop (w h : ℚ) (existing : List MiroItem)
    (initial_step : ℚ) (increase_step_interval : ℕ) :
    ℕ → SpiralState → SpiralState
  | 0, s => s
  | fuel + 1, s =>
    if is_collision s.x s.y w h existing then
      findLoop w h existing initial_step increase_step_interval fuel
        (spiralAdvance initial_step increase_step_interval s)
    else s

/-- The positions at which the loop condition evaluates `is_collision`:
the anchor, then every position reached by a move (the position where
the loop finally stops is included, as is the last position when the
attempt budget runs out — Python evaluates the left conjunct of the
`while` condition there too). -/
def findTraceLoop (w h : ℚ) (existing : List MiroItem)
    (initial_step : ℚ) (increase_step_interval : ℕ) :
    ℕ → SpiralState → List (ℚ × ℚ)
  | 0, s => [(s.x, s.y)]
  | fuel + 1, s =>
    if is_collision s.x s.y w h existing then
      (s.x, s.y) ::
        findTraceLoop w h existing initial_step increase_step_interval fuel
          (spiralAdvance initial_step increase_step_interval s)
    else [(s.x, s.y)]

/-- Final loop state of `find_free_position` for given inputs. -/
def findState (x y width height : ℚ) (existing_items : List MiroItem)
    (initial_step : ℚ) (max_attempts increase_step_interval : ℕ) :
    SpiralState :=
  findLoop width height existing_items initial_step increase_step_interval
    max_attempts (initState x y initial_step)

/-- `find_free_position` from `Card-Creation.py`: run the spiral loop
and return the final coordinates. -/
def find_free_position (x y width height : ℚ)
    (existing_items : List MiroItem) (initial_step : ℚ)
    (max_attempts increase_step_interval : ℕ) : ℚ × ℚ :=
  let s := findState x y width height existing_items initial_step
    max_attempts increase_step_interval
  (s.x, s.y)

/-- The sequence of candidate positions visited by
`find_free_position`, anchor first. -/
def findTrace (x y width height : ℚ) (existing_items : List MiroItem)
    (initial_step : ℚ) (max_attempts increase_step_interval : ℕ) :
    List (ℚ × ℚ) :=
  findTraceLoop width height existing_items initial_step
    increase_step_interval max_attempts (initState x y initial_step)

/-- The search's success flag, read off line 207 of the source: the
code emits its "unable to find a free spot" warning exactly when
`attempts == max_attempts` at loop exit; `found` is the negation. -/
def findFound (x y width height : ℚ) (existing_items : List MiroItem)
    (initial_step : ℚ) (max_attempts increase_step_interval : ℕ) : Bool :=
  if (findState x y width height existing_items initial_step
      max_attempts increase_step_interval).attempts = max_attempts then
    false
  else true

/-! ## Placement service (`create_miro_element`) -/

/-- `title.replace("<br>", "")` on the character list: remove each
non-overlapping occurrence of `<br>`, scanning left to right. -/
def removeBr : List Char → List Char
  | '<' :: 'b' :: 'r' :: '>' :: rest => removeBr rest
  | c :: rest => c :: removeBr rest
  | [] => []

/-- `title.count("<br>")`: non-overlapping occurrences, scanning left
to right. -/
def countBr : List Char → ℕ
  | '<' :: 'b' :: 'r' :: '>' :: rest => countBr rest + 1
  | _ :: rest => countBr rest
  | [] => 0

/-- `adjust_card_height` from `Card-Creation.py`: add 25 per started
block of 13 characters beyond the first 13 (line breaks removed), plus
20 per `<br>`. -/
def adjust_card_height (title : String) (height : ℚ) : ℚ :=
  let title_length := (removeBr title.data).length
  let extra_height : ℕ :=
    if title_length > 13 then ((title_length - 1) / 13) * 25 else 0
  let line_breaks_height : ℕ := countBr title.data * 20
  height + (extra_height : ℚ) + (line_breaks_height : ℚ)

/-- The geometry `create_miro_element` hands to `build_payload`
(`position` and `geometry` fields of the request payload). -/
structure PlaceResult where
  x : ℚ
  y : ℚ
  width : ℚ
  height : ℚ
  deriving DecidableEq, Repr

/-- The geometry pipeline of `create_miro_element` (lines 115–133):
card titles adjust the height, the width is clamped to at least 256,
and the anchor is moved by `find_free_position` (with its default
parameters 50/10000/100) only when the snapshot is non-empty. -/
def create_miro_element (element_type title : String)
    (width height x y : ℚ) (existing_items : List MiroItem) :
    PlaceResult :=
  let height :=
    if element_type = "card" then adjust_card_height title height
    else height
  let width := max width 256
  let pos :=
    if !existing_items.isEmpty then
      find_free_position x y width height existing_items 50 10000 100
    else (x, y)
  { x := pos.1, y := pos.2, width := width, height := height }

/-! ## Hex-color validation (`validate_hex_color`) -/

/-- The character class `[a-fA-F0-9]` of the hex pattern. -/
def isHexChar (c : Char) : Bool :=
  ('a' ≤ c && c ≤ 'f') || ('A' ≤ c && c ≤ 'F') || ('0' ≤ c && c ≤ '9')

/-- The group `([a-fA-F0-9]{6}|[a-fA-F0-9]{3})`: exactly six or exactly
three hex characters. -/
def hexGroup (cs : List Char) : Bool :=
  (decide (cs.length = 6) || decide (cs.length = 3)) && cs.all isHexChar

/-- The optional leading `#?` of the pattern (a `#` can only be matched
by the optional prefix, never by the hex group). -/
def dropHash (cs : List Char) : List Char :=
  match cs with
  | c :: rest => if c = '#' then rest else c :: rest
  | [] => []

/-- Python-`re` semantics of the trailing `$`: it matches at the end of
the string or just before one newline at the end of the string, so a
single trailing `'\n'` is tolerated (and the hex group itself can never
consume a newline). -/
def dropTrailingNewline (cs : List Char) : List Char :=
  if cs.getLast? = some '\n' then cs.dropLast else cs

/-- `hex_pattern.match(color)` for the pattern
`^#?([a-fA-F0-9]{6}|[a-fA-F0-9]{3})$`, as a Boolean. -/
def hexPatternMatch (color : String) : Bool :=
  hexGroup (dropHash (dropTrailingNewline color.data))

/-- `validate_hex_color` from `Card-Creation.py`: return the input with
a `#` prepended when missing if the pattern matches, else the default
`"#00C1D4"` (`color.startswith("#")` tests the first character). -/
def validate_hex_color (color : String) : String :=
  if hexPatternMatch color then
    if color.data.head? = some '#' then color else "#" ++ color
  else "#00C1D4"

/-! ## Supporting lemmas -/

/-- The leg bookkeeping of the loop body in isolation: how
(direction index, current leg length, steps taken in the leg, toggle)
evolve in one iteration. It reads none of the step-growth data. -/
def legStep (directionIndex stepsInCurrentLeg stepsTaken : ℕ)
    (legIncreaseTriggered : Bool) : ℕ × ℕ × ℕ × Bool :=
  if stepsTaken + 1 = stepsInCurrentLeg then
    ((directionIndex + 1) % 4,
      if legIncreaseTriggered then stepsInCurrentLeg + 1
      else stepsInCurrentLeg,
      0,
      !legIncreaseTriggered)
  else
    (directionIndex, stepsInCurrentLeg, stepsTaken + 1, legIncreaseTriggered)

lemma spiralAdvance_attempts (i : ℚ) (g : ℕ) (s : SpiralState) :
    (spiralAdvance i g s).attempts = s.attempts + 1 := by
  simp only [spiralAdvance]
  split <;> rfl

lemma spiralAdvance_step (i : ℚ) (g : ℕ) (s : SpiralState) :
    (spiralAdvance i g s).step =
      if (s.attempts + 1) % g = 0 then s.step + i else s.step := by
  simp only [spiralAdvance]
  split <;> rfl

lemma spiralAdvance_directions (i : ℚ) (g : ℕ) (s : SpiralState) :
    (spiralAdvance i g s).directions =
      if (s.attempts + 1) % g = 0 then mkDirections (s.step + i)
      else s.directions := by
  simp only [spiralAdvance]
  split <;> split <;> rfl

lemma spiralAdvance_leg (i : ℚ) (g : ℕ) (s : SpiralState) :
    ((spiralAdvance i g s).directionIndex,
      (spiralAdvance i g s).stepsInCurrentLeg,
      (spiralAdvance i g s).stepsTaken,
      (spiralAdvance i g s).legIncreaseTriggered)
      = legStep s.directionIndex s.stepsInCurrentLeg s.stepsTaken
          s.legIncreaseTriggered := by
  simp only [spiralAdvance, legStep]
  split <;> rfl

lemma spiralAdvance_step_mono (i : ℚ) (g : ℕ) (s : SpiralState)
    (hi : 0 ≤ i) : s.step ≤ (spiralAdvance i g s).step := by
  rw [spiralAdvance_step]
  split <;> linarith

lemma findLoop_step_mono (w h : ℚ) (existing : List MiroItem) (i : ℚ)
    (g : ℕ) (hi : 0 ≤ i) :
    ∀ (fuel : ℕ) (s : SpiralState),
      s.step ≤ (findLoop w h existing i g fuel s).step := by
  intro fuel
  induction fuel with
  | zero => intro s; simp [findLoop]
  | succ n ih =>
    intro s
    by_cases hc : is_collision s.x s.y w h existing = true
    · calc s.step ≤ (spiralAdvance i g s).step :=
            spiralAdvance_step_mono i g s hi
        _ ≤ (findLoop w h existing i g n (spiralAdvance i g s)).step :=
            ih (spiralAdvance i g s)
        _ = (findLoop w h existing i g (n + 1) s).step := by
            simp [findLoop, hc]
    · simp [findLoop, hc]

lemma findLoop_attempts (w h : ℚ) (existing : List MiroItem) (i : ℚ)
    (g : ℕ) :
    ∀ (fuel : ℕ) (s : SpiralState),
      (findLoop w h existing i g fuel s).attempts ≤ s.attempts + fuel := by
  intro fuel
  induction fuel with
  | zero => intro s; simp [findLoop]
  | succ n ih =>
    intro s
    by_cases hc : is_collision s.x s.y w h existing = true
    · have := ih (spiralAdvance i g s)
      rw [spiralAdvance_attempts] at this
      simp only [findLoop, hc, if_true]
      omega
    · simp [findLoop, hc]

lemma findTraceLoop_length_le (w h : ℚ) (existing : List MiroItem)
    (i : ℚ) (g : ℕ) :
    ∀ (fuel : ℕ) (s : SpiralState),
      (findTraceLoop w h existing i g fuel s).length ≤ fuel + 1 := by
  intro fuel
  induction fuel with
  | zero => intro s; simp [findTraceLoop]
  | succ n ih =>
    intro s
    by_cases hc : is_collision s.x s.y w h existing = true
    · have := ih (spiralAdvance i g s)
      simp only [findTraceLoop, hc, if_true, List.length_cons]
      omega
    · simp [findTraceLoop, hc]

lemma findTraceLoop_getLastD (w h : ℚ) (existing : List MiroItem)
    (i : ℚ) (g : ℕ) :
    ∀ (fuel : ℕ) (s : SpiralState) (d : ℚ × ℚ),
      (findTraceLoop w h existing i g fuel s).getLastD d
        = ((findLoop w h existing i g fuel s).x,
            (findLoop w h existing i g fuel s).y) := by
  intro fuel
  induction fuel with
  | zero => intro s d; simp [findTraceLoop, findLoop]
  | succ n ih =>
    intro s d
    by_cases hc : is_collision s.x s.y w h existing = true
    · simp only [findTraceLoop, findLoop, hc, if_true, List.getLastD_cons]
      exact ih (spiralAdvance i g s) (s.x, s.y)
    · simp [findTraceLoop, findLoop, hc]

end Miro

/-- C1: the collision test of the code coincides with the reference
definition from the specification: candidate-only 10% clearance per
side, center-to-top-left conversion, inclusive axis overlap, and an
existential over the snapshot. -/
theorem C1_collision_matches_spec (nx ny nw nh : ℚ)
    (existing : List Miro.MiroItem) :
    Miro.is_collision nx ny nw nh existing = true ↔
      Miro.collisionSpec nx ny nw nh existing := by
  simp only [Miro.is_collision, List.any_eq_true, Miro.collisionSpec]
  constructor
  · rintro ⟨e, he, hcol⟩
    exact ⟨e, he, (Miro.itemCollision_iff nx ny nw nh e).1 hcol⟩
  · rintro ⟨e, he, hcol⟩
    exact ⟨e, he, (Miro.itemCollision_iff nx ny nw nh e).2 hcol⟩

/-- C2: the spiral search is a total function (the embedding terminates
on every anchor, size, snapshot and budget and produces a value, never
an error): it always returns the last visited position; when the run
consumes the whole attempt budget the success flag (the negation of the
code's exhaustion warning) is `false`; and `create_miro_element`
propagates the search's position to its payload instead of failing. -/
theorem C2_find_never_raises (x y w h : ℚ) (existing : List Miro.MiroItem)
    (step0 : ℚ) (maxAttempts growEvery : ℕ) :
    Miro.find_free_position x y w h existing step0 maxAttempts growEvery
      = (Miro.findTrace x y w h existing step0 maxAttempts growEvery).getLastD
          (x, y)
    ∧ ((Miro.findState x y w h existing step0 maxAttempts
          growEvery).attempts = maxAttempts →
        Miro.findFound x y w h existing step0 maxAttempts growEvery = false)
    ∧ (∀ et ti : String, existing ≠ [] →
        ((Miro.create_miro_element et ti w h x y existing).x,
          (Miro.create_miro_element et ti w h x y existing).y)
          = Miro.find_free_position x y (max w 256)
              (if et = "card" then Miro.adjust_card_height ti h else h)
              existing 50 10000 100) := by
  refine ⟨?_, ?_, ?_⟩
  · rw [Miro.find_free_position, Miro.findTrace, Miro.findState,
      Miro.findTraceLoop_getLastD]
  · intro hA
    simp [Miro.findFound, hA]
  · intro et ti hne
    have hempty : existing.isEmpty = false := by
      cases existing with
      | nil => exact absurd rfl hne
      | cons a l => rfl
    simp [Miro.create_miro_element, hempty]

/-- C2 witness: a concrete exhausted run (budget 3 against an obstacle
covering all early candidates) and a concrete propagation through
`create_miro_element`. -/
theorem C2_find_never_raises_witness :
    (Miro.find_free_position 0 0 100 100 [⟨0, 0, 300, 300⟩] 50 3 100
      = (Miro.findTrace 0 0 100 100 [⟨0, 0, 300, 300⟩] 50 3 100).getLastD
          (0, 0))
    ∧ Miro.findFound 0 0 100 100 [⟨0, 0, 300, 300⟩] 50 3 100 = false
    ∧ ((Miro.create_miro_element "shape" "t" 100 100 0 0
          [⟨0, 0, 300, 300⟩]).x,
        (Miro.create_miro_element "shape" "t" 100 100 0 0
          [⟨0, 0, 300, 300⟩]).y)
        = Miro.find_free_position 0 0 (max 100 256)
            (if ("shape" : String) = "card" then
              Miro.adjust_card_height "t" 100
            else 100)
            [⟨0, 0, 300, 300⟩] 50 10000 100 :=
  ⟨(C2_find_never_raises 0 0 100 100 [⟨0, 0, 300, 300⟩] 50 3 100).1,
    (C2_find_never_raises 0 0 100 100 [⟨0, 0, 300, 300⟩] 50 3 100).2.1
      (by decide),
    (C2_find_never_raises 0 0 100 100 [⟨0, 0, 300, 300⟩] 50 3 100).2.2
      "shape" "t" (by decide)⟩

/-- C3 counterexample: with width = height = −10 (non-positive) and an
obstacle at the anchor, the search is not rejected: the collision test
runs at the anchor, a spiral step is executed (the attempts counter
reaches 1) and the moved position `(50, 0)` is returned. -/
theorem C3_no_rejection_counterexample :
    Miro.is_collision 0 0 (-10) (-10) [⟨0, 0, 100, 100⟩] = true
    ∧ (Miro.findState 0 0 (-10) (-10) [⟨0, 0, 100, 100⟩] 50 5 100).attempts
        = 1
    ∧ Miro.find_free_position 0 0 (-10) (-10) [⟨0, 0, 100, 100⟩] 50 5 100
        = (50, 0) := by
  decide

/-- C3 (amended): neither `find_free_position` nor `create_miro_element`
validates the geometry: a non-positive width or height is accepted, the
spiral loop runs its ordinary bounded stepping rule (the attempt cap is
the only bound) and returns the loop's final position, and the
placement service merely clamps the width up to 256 without rejecting
anything. -/
theorem C3_no_geometry_validation (x y w h : ℚ)
    (existing : List Miro.MiroItem) (step0 : ℚ) (maxA growE : ℕ)
    (_hwh : w ≤ 0 ∨ h ≤ 0) :
    (Miro.findState x y w h existing step0 maxA growE).attempts ≤ maxA
    ∧ Miro.find_free_position x y w h existing step0 maxA growE
        = ((Miro.findState x y w h existing step0 maxA growE).x,
            (Miro.findState x y w h existing step0 maxA growE).y)
    ∧ (∀ et ti : String,
        (Miro.create_miro_element et ti w h x y existing).width
          = max w 256) := by
  refine ⟨?_, rfl, ?_⟩
  · have := Miro.findLoop_attempts w h existing step0 growE maxA
      (Miro.initState x y step0)
    simpa [Miro.findState, Miro.initState] using this
  · intro et ti
    simp [Miro.create_miro_element]

/-- C3 witness: the amended statement at the concrete degenerate
geometry −10 × −10. -/
theorem C3_no_geometry_validation_witness :
    ((-10 : ℚ) ≤ 0 ∨ (-10 : ℚ) ≤ 0)
    ∧ ((Miro.findState 0 0 (-10) (-10) [⟨0, 0, 100, 100⟩] 50 5 100).attempts
          ≤ 5
        ∧ Miro.find_free_position 0 0 (-10) (-10) [⟨0, 0, 100, 100⟩] 50 5 100
            = ((Miro.findState 0 0 (-10) (-10) [⟨0, 0, 100, 100⟩]
                  50 5 100).x,
                (Miro.findState 0 0 (-10) (-10) [⟨0, 0, 100, 100⟩]
                  50 5 100).y)
        ∧ (∀ et ti : String,
            (Miro.create_miro_element et ti (-10) (-10) 0 0
                [⟨0, 0, 100, 100⟩]).width = max (-10) 256)) :=
  ⟨Or.inl (by norm_num),
    C3_no_geometry_validation 0 0 (-10) (-10) [⟨0, 0, 100, 100⟩] 50 5 100
      (Or.inl (by norm_num))⟩

/-- C4: for any inputs with budget `maxAttempts = N`, the spiral search
terminates and the collision test is evaluated on at most `N + 1`
candidate positions (the visit trace, anchor included, has length at
most `N + 1`). -/
theorem C4_attempt_bound (x y w h : ℚ) (existing : List Miro.MiroItem)
    (step0 : ℚ) (maxAttempts growEvery : ℕ) :
    (Miro.findTrace x y w h existing step0 maxAttempts growEvery).length
      ≤ maxAttempts + 1 := by
  simpa [Miro.findTrace] using
    Miro.findTraceLoop_length_le w h existing step0 growEvery maxAttempts
      (Miro.initState x y step0)

/-- C5: starting at the anchor `(0, 0)` with `step0 = 50` on a snapshot
whose obstacle makes the first nine candidates collide, the visited
sequence begins with the anchor followed by exactly
(50,0), (50,50), (0,50), (−50,50), (−50,0), (−50,−50), (0,−50),
(50,−50) — leg lengths 1,1,2,2,… in direction order +x, +y, −x, −y —
and those first nine candidates all collide. -/
theorem C5_leg_trace :
    (Miro.findTrace 0 0 100 100 [⟨0, 0, 10000, 10000⟩] 50 12 100).take 9
      = [(0, 0), (50, 0), (50, 50), (0, 50), (-50, 50), (-50, 0),
          (-50, -50), (0, -50), (50, -50)]
    ∧ ([(0, 0), (50, 0), (50, 50), (0, 50), (-50, 50), (-50, 0),
          (-50, -50), (0, -50), (50, -50)].all
        fun p => Miro.is_collision p.1 p.2 100 100 [⟨0, 0, 10000, 10000⟩])
        = true := by
  decide

/-- C6: in one loop iteration the step magnitude never decreases (for a
non-negative `step0`), it grows by exactly `step0` — with the four
direction vectors regenerated at the new magnitude — precisely when the
new attempts count is a multiple of `growEvery` (and is left untouched,
directions included, otherwise), while the leg bookkeeping (direction
index, leg length, steps taken, toggle) evolves by the growth-independent
rule `legStep` of the pre-growth counters — it is neither reset nor
rescaled; consequently the step magnitude is non-decreasing over any
whole run of the search loop. -/
theorem C6_step_growth (step0 : ℚ) (growEvery : ℕ) (s : Miro.SpiralState)
    (h0 : 0 ≤ step0) :
    s.step ≤ (Miro.spiralAdvance step0 growEvery s).step
    ∧ ((s.attempts + 1) % growEvery = 0 →
        (Miro.spiralAdvance step0 growEvery s).step = s.step + step0
        ∧ (Miro.spiralAdvance step0 growEvery s).directions
            = Miro.mkDirections (s.step + step0))
    ∧ ((s.attempts + 1) % growEvery ≠ 0 →
        (Miro.spiralAdvance step0 growEvery s).step = s.step
        ∧ (Miro.spiralAdvance step0 growEvery s).directions = s.directions)
    ∧ ((Miro.spiralAdvance step0 growEvery s).directionIndex,
        (Miro.spiralAdvance step0 growEvery s).stepsInCurrentLeg,
        (Miro.spiralAdvance step0 growEvery s).stepsTaken,
        (Miro.spiralAdvance step0 growEvery s).legIncreaseTriggered)
        = Miro.legStep s.directionIndex s.stepsInCurrentLeg s.stepsTaken
            s.legIncreaseTriggered
    ∧ (∀ (w h : ℚ) (existing : List Miro.MiroItem) (fuel : ℕ),
        s.step ≤ (Miro.findLoop w h existing step0 growEvery fuel s).step) := by
  refine ⟨Miro.spiralAdvance_step_mono step0 growEvery s h0, ?_, ?_,
    Miro.spiralAdvance_leg step0 growEvery s, ?_⟩
  · intro hg
    rw [Miro.spiralAdvance_step, Miro.spiralAdvance_directions, if_pos hg,
      if_pos hg]
    exact ⟨rfl, rfl⟩
  · intro hg
    rw [Miro.spiralAdvance_step, Miro.spiralAdvance_directions, if_neg hg,
      if_neg hg]
    exact ⟨rfl, rfl⟩
  · intro w h existing fuel
    exact Miro.findLoop_step_mono w h existing step0 growEvery h0 fuel s

/-- C6 witness: the per-step facts at a state about to cross the growth
boundary (attempts = 99, `growEvery = 100`) and the run-level
monotonicity at a concrete loop. -/
theorem C6_step_growth_witness :
    (0 : ℚ) ≤ 50
    ∧ (Miro.spiralAdvance 50 100
        ⟨0, 0, 50, 99, Miro.mkDirections 50, 0, 1, 0, false⟩).step
        = 50 + 50
    ∧ (Miro.spiralAdvance 50 100
        ⟨0, 0, 50, 99, Miro.mkDirections 50, 0, 1, 0, false⟩).directions
        = Miro.mkDirections (50 + 50)
    ∧ (Miro.initState 0 0 50).step
        ≤ (Miro.findLoop 300 300 [⟨0, 0, 300, 300⟩] 50 100 5
            (Miro.initState 0 0 50)).step :=
  have h := C6_step_growth 50 100
    ⟨0, 0, 50, 99, Miro.mkDirections 50, 0, 1, 0, false⟩ (by norm_num)
  have h2 := C6_step_growth 50 100 (Miro.initState 0 0 50) (by norm_num)
  ⟨by norm_num, (h.2.1 (by norm_num)).1, (h.2.1 (by norm_num)).2,
    h2.2.2.2.2 300 300 [⟨0, 0, 300, 300⟩] 5⟩

set_option maxRecDepth 40000 in
set_option maxHeartbeats 2000000 in
/-- C7: with one existing 300×300 rectangle centered at the origin,
requesting a 300×300 item anchored at the origin with the default
parameters (step0 = 50, maxAttempts = 10000, growEvery = 100) returns
the position (−250, −350), and re-running the collision test (with its
10% clearance) at that result reports no overlap with the obstacle. -/
theorem C7_single_obstacle :
    Miro.find_free_position 0 0 300 300 [⟨0, 0, 300, 300⟩] 50 10000 100
      = (-250, -350)
    ∧ Miro.is_collision (-250) (-350) 300 300 [⟨0, 0, 300, 300⟩] = false := by
  decide

/-- C8: with an empty snapshot the placement service returns the
requested anchor unchanged, for every element type, title and requested
size (the spiral search contributes nothing). -/
theorem C8_empty_snapshot (et ti : String) (w h x y : ℚ) :
    (Miro.create_miro_element et ti w h x y []).x = x
    ∧ (Miro.create_miro_element et ti w h x y []).y = y := by
  constructor <;> simp [Miro.create_miro_element]

/-- C9 counterexample: for a card with a 14-character title,
`create_miro_element` itself adjusts the height: the caller supplies
300 and the emitted height is 325. -/
theorem C9_height_adjusted_counterexample :
    (Miro.create_miro_element "card" "abcdefghijklmn" 300 300 0 0 []).height
      = 325
    ∧ (325 : ℚ) ≠ 300 := by
  constructor
  · decide
  · norm_num

/-- C9 (amended): the service passes the caller's height through
unchanged for non-card element types, but for cards it applies the
label-driven adjustment (`adjust_card_height`, a function of the title's
length and line-break count) itself, before the search; the height it
feeds to the spiral search is exactly the height it emits. -/
theorem C9_height_pass_through (et ti : String) (w h x y : ℚ)
    (existing : List Miro.MiroItem) :
    (Miro.create_miro_element et ti w h x y existing).height
      = (if et = "card" then Miro.adjust_card_height ti h else h)
    ∧ (et ≠ "card" →
        (Miro.create_miro_element et ti w h x y existing).height = h)
    ∧ (existing ≠ [] →
        ((Miro.create_miro_element et ti w h x y existing).x,
          (Miro.create_miro_element et ti w h x y existing).y)
          = Miro.find_free_position x y (max w 256)
              ((Miro.create_miro_element et ti w h x y existing).height)
              existing 50 10000 100) := by
  refine ⟨by simp [Miro.create_miro_element], ?_, ?_⟩
  · intro hne
    simp [Miro.create_miro_element, hne]
  · intro hne
    have hempty : existing.isEmpty = false := by
      cases existing with
      | nil => exact absurd rfl hne
      | cons a l => rfl
    simp [Miro.create_miro_element, hempty]

/-- C9 witness: the amended statement at a concrete non-card request
with a far-away obstacle. -/
theorem C9_height_pass_through_witness :
    (Miro.create_miro_element "shape" "t" 300 300 0 0
        [⟨1000, 1000, 10, 10⟩]).height
      = (if ("shape" : String) = "card" then
          Miro.adjust_card_height "t" 300
        else 300)
    ∧ (Miro.create_miro_element "shape" "t" 300 300 0 0
        [⟨1000, 1000, 10, 10⟩]).height = 300
    ∧ ((Miro.create_miro_element "shape" "t" 300 300 0 0
          [⟨1000, 1000, 10, 10⟩]).x,
        (Miro.create_miro_element "shape" "t" 300 300 0 0
          [⟨1000, 1000, 10, 10⟩]).y)
        = Miro.find_free_position 0 0 (max 300 256)
            ((Miro.create_miro_element "shape" "t" 300 300 0 0
              [⟨1000, 1000, 10, 10⟩]).height)
            [⟨1000, 1000, 10, 10⟩] 50 10000 100 :=
  ⟨(C9_height_pass_through "shape" "t" 300 300 0 0
      [⟨1000, 1000, 10, 10⟩]).1,
    (C9_height_pass_through "shape" "t" 300 300 0 0
      [⟨1000, 1000, 10, 10⟩]).2.1 (by decide),
    (C9_height_pass_through "shape" "t" 300 300 0 0
      [⟨1000, 1000, 10, 10⟩]).2.2 (by decide)⟩

namespace Miro

/-- The output shape asserted by the original reading of the validator
contract, as a Boolean: a `'#'` followed by exactly 3 or 6 hex
characters and nothing else. -/
def strictHexOutput (s : String) : Bool :=
  match s.data with
  | '#' :: rest =>
    (decide (rest.length = 3) || decide (rest.length = 6)) && rest.all isHexChar
  | _ => false

/-- The input shape asserted by the original reading of the validator
contract, as a Boolean: with or without a leading `'#'`, exactly 3 or 6
hex characters and nothing else. -/
def strictHexInput (s : String) : Bool :=
  hexGroup (dropHash s.data)

/-- The amended input shape: an optional `'#'`, then exactly 3 or 6 hex
characters, then at most one trailing newline. -/
def MatchesHexInput (s : String) : Prop :=
  ∃ opt digits nl : List Char,
    s.data = opt ++ digits ++ nl
    ∧ (opt = [] ∨ opt = ['#'])
    ∧ (digits.length = 3 ∨ digits.length = 6)
    ∧ (∀ c ∈ digits, isHexChar c = true)
    ∧ (nl = [] ∨ nl = ['\n'])

/-- The amended output shape: a `'#'`, then exactly 3 or 6 hex
characters, then at most one trailing newline. -/
def HexOutputShape (s : String) : Prop :=
  ∃ digits nl : List Char,
    s.data = '#' :: (digits ++ nl)
    ∧ (digits.length = 3 ∨ digits.length = 6)
    ∧ (∀ c ∈ digits, isHexChar c = true)
    ∧ (nl = [] ∨ nl = ['\n'])

lemma isHexChar_ne_newline {c : Char} (h : isHexChar c = true) :
    c ≠ '\n' := by
  rintro rfl
  exact absurd h (by decide)

lemma isHexChar_ne_hash {c : Char} (h : isHexChar c = true) : c ≠ '#' := by
  rintro rfl
  exact absurd h (by decide)

lemma hexGroup_iff (cs : List Char) :
    hexGroup cs = true ↔
      (cs.length = 3 ∨ cs.length = 6) ∧ ∀ c ∈ cs, isHexChar c = true := by
  constructor
  · intro h
    simp only [hexGroup, Bool.and_eq_true, Bool.or_eq_true,
      decide_eq_true_eq] at h
    exact ⟨h.1.symm, List.all_eq_true.mp h.2⟩
  · rintro ⟨h1, h2⟩
    simp only [hexGroup, Bool.and_eq_true, Bool.or_eq_true,
      decide_eq_true_eq]
    exact ⟨h1.symm, List.all_eq_true.mpr h2⟩

lemma dropTrailingNewline_all_hex (opt digits : List Char)
    (hne : digits ≠ []) (hhex : ∀ c ∈ digits, isHexChar c = true) :
    dropTrailingNewline (opt ++ digits) = opt ++ digits := by
  unfold dropTrailingNewline
  rw [List.getLast?_append_of_ne_nil opt hne]
  obtain ⟨d, hd⟩ : ∃ d, digits.getLast? = some d :=
    ⟨_, List.getLast?_eq_getLast_of_ne_nil hne⟩
  have hdm : d ∈ digits := by
    obtain ⟨h9, heq⟩ :=
      List.mem_getLast?_eq_getLast (l := digits) (x := d) (by rw [hd]; rfl)
    rw [heq]
    exact List.getLast_mem h9
  have hne2 : ¬digits.getLast? = some '\n' := by
    rw [hd]
    intro hcon
    exact isHexChar_ne_newline (hhex d hdm) (Option.some.inj hcon)
  rw [if_neg hne2]

lemma dropTrailingNewline_concat (l : List Char) :
    dropTrailingNewline (l ++ ['\n']) = l := by
  unfold dropTrailingNewline
  rw [if_pos (List.getLast?_concat l), List.dropLast_concat]

lemma dropHash_all_hex (digits : List Char) (hne : digits ≠ [])
    (hhex : ∀ c ∈ digits, isHexChar c = true) :
    dropHash digits = digits := by
  cases digits with
  | nil => rfl
  | cons d rest =>
    have : d ≠ '#' := isHexChar_ne_hash (hhex d (List.mem_cons_self d rest))
    simp [dropHash, this]

lemma dropHash_hash (rest : List Char) : dropHash ('#' :: rest) = rest := by
  simp [dropHash]

/-- The source's regex test accepts exactly the strings of the amended
input shape. -/
lemma hexPatternMatch_iff (s : String) :
    hexPatternMatch s = true ↔ MatchesHexInput s := by
  constructor
  · intro hm
    unfold hexPatternMatch at hm
    by_cases hnl : s.data.getLast? = some '\n'
    · have hsplit : s.data.dropLast ++ ['\n'] = s.data :=
        List.dropLast_append_getLast? '\n' hnl
      have hbase : dropTrailingNewline s.data = s.data.dropLast := by
        unfold dropTrailingNewline
        rw [if_pos hnl]
      rw [hbase] at hm
      cases hdl : s.data.dropLast with
      | nil => rw [hdl] at hm; exact absurd hm (by decide)
      | cons c rest =>
        rw [hdl] at hm
        by_cases hc : c = '#'
        · subst hc
          rw [dropHash_hash] at hm
          obtain ⟨hlen, hhex⟩ := (hexGroup_iff rest).1 hm
          refine ⟨['#'], rest, ['\n'], ?_, Or.inr rfl, hlen, hhex, Or.inr rfl⟩
          rw [← hsplit, hdl]
          simp
        · simp only [dropHash, if_neg hc] at hm
          obtain ⟨hlen, hhex⟩ := (hexGroup_iff (c :: rest)).1 hm
          refine ⟨[], c :: rest, ['\n'], ?_, Or.inl rfl, hlen, hhex,
            Or.inr rfl⟩
          rw [← hsplit, hdl]
          simp
    · have hbase : dropTrailingNewline s.data = s.data := by
        unfold dropTrailingNewline
        rw [if_neg hnl]
      rw [hbase] at hm
      cases hdl : s.data with
      | nil => rw [hdl] at hm; exact absurd hm (by decide)
      | cons c rest =>
        rw [hdl] at hm
        by_cases hc : c = '#'
        · subst hc
          rw [dropHash_hash] at hm
          obtain ⟨hlen, hhex⟩ := (hexGroup_iff rest).1 hm
          exact ⟨['#'], rest, [], by rw [hdl]; simp, Or.inr rfl, hlen, hhex,
            Or.inl rfl⟩
        · simp only [dropHash, if_neg hc] at hm
          obtain ⟨hlen, hhex⟩ := (hexGroup_iff (c :: rest)).1 hm
          exact ⟨[], c :: rest, [], by rw [hdl]; simp, Or.inl rfl, hlen, hhex,
            Or.inl rfl⟩
  · rintro ⟨opt, digits, nl, hdecomp, hopt, hlen, hhex, hnl⟩
    have hne : digits ≠ [] := by
      rcases hlen with h3 | h6
      · intro h0; rw [h0] at h3; exact absurd h3 (by decide)
      · intro h0; rw [h0] at h6; exact absurd h6 (by decide)
    unfold hexPatternMatch
    have hstep1 : dropTrailingNewline s.data = opt ++ digits := by
      rcases hnl with rfl | rfl
      · rw [hdecomp, List.append_nil]
        exact dropTrailingNewline_all_hex opt digits hne hhex
      · rw [hdecomp]
        exact dropTrailingNewline_concat (opt ++ digits)
    rw [hstep1]
    have hstep2 : dropHash (opt ++ digits) = digits := by
      rcases hopt with rfl | rfl
      · rw [List.nil_append]
        exact dropHash_all_hex digits hne hhex
      · rw [List.singleton_append]
        exact dropHash_hash digits
    rw [hstep2]
    exact (hexGroup_iff digits).2 ⟨hlen, hhex⟩

end Miro

/-- C10 counterexample: Python's `$` also matches just before a trailing
newline, so the input `"abc\n"` is accepted and returned as `"#abc\n"`:
the result is neither the default nor of the shape `'#'` + exactly 3 or
6 hex digits, and the input does not match the claimed input shape
either. -/
theorem C10_trailing_newline_counterexample :
    Miro.validate_hex_color "abc\n" = "#abc\n"
    ∧ Miro.strictHexInput "abc\n" = false
    ∧ Miro.strictHexOutput "#abc\n" = false
    ∧ ("#abc\n" : String) ≠ "#00C1D4" := by
  decide

/-- C10 (amended): `validate_hex_color` returns the fixed default
`"#00C1D4"` unless the input consists of an optional `'#'`, exactly 3
or 6 hex digits, and at most one trailing newline (Python's `$` matches
before a final newline); matching inputs are returned unchanged when
they already start with `'#'` and with `'#'` prepended otherwise, so a
non-default result is `'#'` + 3 or 6 hex digits + at most one trailing
newline. -/
theorem C10_hex_validation (s : String) :
    (Miro.MatchesHexInput s →
      (s.data.head? = some '#' → Miro.validate_hex_color s = s)
      ∧ (s.data.head? ≠ some '#' → Miro.validate_hex_color s = "#" ++ s)
      ∧ Miro.HexOutputShape (Miro.validate_hex_color s))
    ∧ (¬Miro.MatchesHexInput s →
        Miro.validate_hex_color s = "#00C1D4") := by
  constructor
  · intro hm
    have hp : Miro.hexPatternMatch s = true := (Miro.hexPatternMatch_iff s).2 hm
    refine ⟨?_, ?_, ?_⟩
    · intro hh
      simp [Miro.validate_hex_color, hp, hh]
    · intro hh
      simp [Miro.validate_hex_color, hp, hh]
    · obtain ⟨opt, digits, nl, hdecomp, hopt, hlen, hhex, hnl⟩ := hm
      have hne : digits ≠ [] := by
        rcases hlen with h3 | h6
        · intro h0; rw [h0] at h3; exact absurd h3 (by decide)
        · intro h0; rw [h0] at h6; exact absurd h6 (by decide)
      by_cases hh : s.data.head? = some '#'
      · have hres : Miro.validate_hex_color s = s := by
          simp [Miro.validate_hex_color, hp, hh]
        rw [hres]
        rcases hopt with rfl | rfl
        · exfalso
          cases hdg : digits with
          | nil => exact hne hdg
          | cons d rest =>
            rw [hdecomp, List.nil_append, hdg] at hh
            have hd : d = '#' := by simpa using hh
            exact Miro.isHexChar_ne_hash
              (hhex d (by rw [hdg]; exact List.mem_cons_self d rest)) hd
        · exact ⟨digits, nl, by rw [hdecomp]; simp, hlen, hhex, hnl⟩
      · have hres : Miro.validate_hex_color s = "#" ++ s := by
          simp [Miro.validate_hex_color, hp, hh]
        rw [hres]
        rcases hopt with rfl | rfl
        · refine ⟨digits, nl, ?_, hlen, hhex, hnl⟩
          rw [String.data_append, hdecomp]
          simp
        · exfalso
          apply hh
          rw [hdecomp]
          simp
  · intro hnm
    have hp : Miro.hexPatternMatch s = false := by
      cases hb : Miro.hexPatternMatch s
      · rfl
      · exact absurd ((Miro.hexPatternMatch_iff s).1 hb) hnm
    simp [Miro.validate_hex_color, hp]

/-- C10 witness: the amended statement at the concrete input
`"0a1b2c"` (six hex digits, no leading hash, no newline). -/
theorem C10_hex_validation_witness :
    Miro.validate_hex_color "0a1b2c" = "#" ++ "0a1b2c"
    ∧ Miro.HexOutputShape (Miro.validate_hex_color "0a1b2c") :=
  have hm : Miro.MatchesHexInput "0a1b2c" :=
    ⟨[], ['0', 'a', '1', 'b', '2', 'c'], [], by decide, Or.inl rfl,
      Or.inr (by decide), by decide, Or.inl rfl⟩
  have h := (C10_hex_validation "0a1b2c").1 hm
  ⟨h.2.1 (by decide), h.2.2⟩
